import Mathlib

/-!
Verification of the `pygmail` mailbox module (`pygmail/mailbox.py`).

The development shallowly embeds the pure fetch-response decoder
(`parse_fetch_request`), the pagination helper (`page_from_list`), and the
command/state behaviour of the `Mailbox` operations (`select`, `count`,
`delete_message`, `fetch_all`, `messages_by_id`).

Stateful operations are modelled as explicit state-passing functions that
also return the list of IMAP commands issued on the shared connection, so
that properties about which commands a run issues (and in which order) can
be stated and proved.  Protocol-level failures (the `check_imap_state` /
`check_imap_response` decorators from `pygmail.errors`, which abort the
continuation chain on connection or response errors) are outside the runs
the claims quantify over: every modelled run is an error-free run, which is
the hypothesis under which all the verified sentences of the specification
speak.  Fallible Python code (IndexError / TypeError on malformed response
shapes) is modelled with `Option`.
-/

namespace PyGmail

/-! ### String helpers (Python string primitives used by the module) -/

/-- `listStartsWith p s` is true when `p` is a prefix of `s`
(character-list version, used to model Python substring tests). -/
def listStartsWith : List Char → List Char → Bool
  | [], _ => true
  | _ :: _, [] => false
  | p :: ps, c :: cs => p == c && listStartsWith ps cs

/-- `listHasSub n h` is true when `n` occurs as a contiguous run inside `h`:
the model of the Python `in` substring test. -/
def listHasSub (needle : List Char) : List Char → Bool
  | [] => needle.isEmpty
  | c :: cs => listStartsWith needle (c :: cs) || listHasSub needle cs

/-- Python `needle in hay` on strings. -/
def substr (needle hay : String) : Bool :=
  listHasSub needle.data hay.data

/-- Worker for `pySplitWs`: splits at whitespace runs, discarding empties,
accumulating the current token in reverse. -/
def splitWsAux : List Char → List Char → List String
  | [], acc => if acc.isEmpty then [] else [String.mk acc.reverse]
  | c :: cs, acc =>
    if c.isWhitespace then
      if acc.isEmpty then splitWsAux cs []
      else String.mk acc.reverse :: splitWsAux cs []
    else splitWsAux cs (c :: acc)

/-- Python `s.split()` (no separator argument): split on whitespace runs and
drop empty tokens. -/
def pySplitWs (s : String) : List String :=
  splitWsAux s.data []

/-! ### The raw FETCH response (`parse_fetch_request`, mailbox.py lines 30-132)

A raw response (`extract_data(imap_response)`) is an ordered sequence of
parts; each part is either a plain string (a section terminator line), a
nested tuple of string sub-parts, or Python `None`.  A missing response is
modelled by `Option.none` at the top level. -/

/-- One part of a raw IMAP FETCH response. -/
inductive Part where
  /-- a terminal string part -/
  | str (s : String)
  /-- a nested tuple of string sub-parts -/
  | tup (subs : List String)
  /-- Python `None` appearing as a part -/
  | pynil
deriving DecidableEq

/-- Python truth-value of a part: the empty string, the empty tuple and
`None` are falsy. -/
def Part.falsy : Part → Bool
  | .str s => s.isEmpty
  | .tup l => l.isEmpty
  | .pynil => true

/-- `part[0]` and `part[1]` in Python 2: indexing a string yields
one-character strings, indexing a tuple yields its elements; a too-short
part or `None` raises (modelled by `none`). -/
def Part.get2? : Part → Option (String × String)
  | .str s =>
    match s.data with
    | c1 :: c2 :: _ => some (String.mk [c1], String.mk [c2])
    | _ => none
  | .tup (a :: b :: _) => some (a, b)
  | .tup _ => none
  | .pynil => none

/-- Message records produced by the decoder, mirroring the classes
`GM.Message`, `GM.MessageHeaders`, `GM.MessageTeaser` and the bare
Gmail-id strings. -/
inductive GMRecord where
  /-- a bare X-GM-MSGID string (gm_id mode) -/
  | gmId (id : String)
  /-- `GM.Message(mailbox, metadata, headers, body)` (full mode) -/
  | message (mailbox metadata headers body : String)
  /-- `GM.MessageTeaser(mailbox, metadata, headers, body)` (teaser mode) -/
  | messageTeaser (mailbox metadata headers body : String)
  /-- `GM.MessageHeaders(mailbox, metadata, headers)` (header mode) -/
  | messageHeaders (mailbox metadata headers : String)
deriving DecidableEq

/-- The regular expression `GM_ID_EXTRACTOR`, `\d+ \(X-GM-MSGID (\d+)\)`,
applied with `re.match` (anchored at the start, trailing text allowed):
maximal digit run, the literal text, the captured digit run, then a closing
parenthesis. -/
def gmIdMatch (s : String) : Option String :=
  let cs := s.data
  let d1 := cs.takeWhile Char.isDigit
  let r1 := cs.dropWhile Char.isDigit
  if d1.isEmpty then none
  else
    let lit := " (X-GM-MSGID ".data
    if listStartsWith lit r1 then
      let r2 := r1.drop lit.length
      let d2 := r2.takeWhile Char.isDigit
      let r3 := r2.dropWhile Char.isDigit
      if d2.isEmpty then none
      else
        match r3 with
        | ')' :: _ => some (String.mk d2)
        | _ => none
    else none

/-- The `gm_id` branch of `parse_fetch_request`: scan each part with
`GM_ID_EXTRACTOR`, keeping matches in order.  Applying the regular
expression to a non-string part raises in Python (modelled by `none`). -/
def gm_id_loop : List Part → Option (List GMRecord)
  | [] => some []
  | .str s :: rest =>
    match gm_id_loop rest with
    | some ms =>
      match gmIdMatch s with
      | some i => some (GMRecord.gmId i :: ms)
      | none => some ms
    | none => none
  | _ :: _ => none

/-- The mutable scanner state of the teaser branch: the three accumulating
sections and the two boundary flags. -/
structure TeaserState where
  end_metadata : Bool
  end_header : Bool
  metadata_section : String
  header_section : String
  body_section : String
deriving DecidableEq

/-- Initial (and post-emit reset) teaser scanner state. -/
def initTeaserState : TeaserState :=
  ⟨false, false, "", "", ""⟩

/-- One sub-part step of the teaser branch (the body of the inner
`for sub_part in part` loop); the second component is `message_complete`. -/
def teaser_step (acc : TeaserState × Bool) (sub : String) : TeaserState × Bool :=
  let st := acc.1
  if !st.end_metadata then
    let st1 := { st with metadata_section := st.metadata_section ++ sub }
    let st2 := if substr "BODY[HEADER]" sub then { st1 with end_metadata := true } else st1
    (st2, acc.2)
  else if !st.end_header then
    let st1 :=
      if substr "BODY[1]" sub then { st with end_header := true }
      else { st with header_section := st.header_section ++ sub }
    if substr "BODY[1] NIL)" sub then (st1, true) else (st1, acc.2)
  else
    ({ st with body_section := st.body_section ++ sub }, acc.2)

/-- The inner loop of the teaser branch over the sub-parts of one tuple. -/
def teaser_subs (subs : List String) (acc : TeaserState × Bool) : TeaserState × Bool :=
  subs.foldl teaser_step acc

/-- The teaser branch of `parse_fetch_request`: a string part completes the
current message; a tuple part is scanned sub-part by sub-part and may
complete the message via the `BODY[1] NIL)` marker; iterating over `None`
raises (modelled by `none`). -/
def teaser_loop (mailbox : String) : List Part → TeaserState → Option (List GMRecord)
  | [], _ => some []
  | .str _ :: rest, st =>
    match teaser_loop mailbox rest initTeaserState with
    | some ms =>
      some (GMRecord.messageTeaser mailbox st.metadata_section st.header_section
              st.body_section :: ms)
    | none => none
  | .tup subs :: rest, st =>
    let r := teaser_subs subs (st, false)
    if r.2 then
      match teaser_loop mailbox rest initTeaserState with
      | some ms =>
        some (GMRecord.messageTeaser mailbox r.1.metadata_section r.1.header_section
                r.1.body_section :: ms)
      | none => none
    else teaser_loop mailbox rest r.1
  | .pynil :: _, _ => none

/-- The full branch of `parse_fetch_request`: with no captured parts, read
`part[0]`, `part[1]`, `part[1]` (metadata, then the combined text used for
both headers and body); with three captured parts the next part is the
ignored terminator and the message is emitted. -/
def full_loop (mailbox : String) : List Part → List String → Option (List GMRecord)
  | [], _ => some []
  | part :: rest, [] =>
    match part.get2? with
    | some (a, b) => full_loop mailbox rest [a, b, b]
    | none => none
  | _ :: rest, [a, b, c] =>
    match full_loop mailbox rest [] with
    | some ms => some (GMRecord.message mailbox a b c :: ms)
    | none => none
  | _ :: rest, mp => full_loop mailbox rest mp

/-- The header branch of `parse_fetch_request`: with no captured parts, read
`part[0]`, `part[1]` (metadata, headers); with two captured parts the next
part is the ignored terminator and the message is emitted. -/
def header_loop (mailbox : String) : List Part → List String → Option (List GMRecord)
  | [], _ => some []
  | part :: rest, [] =>
    match part.get2? with
    | some (a, b) => header_loop mailbox rest [a, b]
    | none => none
  | _ :: rest, [a, b] =>
    match header_loop mailbox rest [] with
    | some ms => some (GMRecord.messageHeaders mailbox a b :: ms)
    | none => none
  | _ :: rest, mp => header_loop mailbox rest mp

/-- `parse_fetch_request(response, mailbox, teaser, full, gm_id)`
(mailbox.py lines 30-132).  A missing (`None`) or empty response, or a
response whose first part is falsy, decodes to no messages; otherwise the
branch is chosen by the flags in the source's order (`gm_id`, then
`teaser`, then `full`, else headers). -/
def parse_fetch_request (response : Option (List Part)) (mailbox : String)
    (teaser full gm_id : Bool) : Option (List GMRecord) :=
  match response with
  | none => some []
  | some [] => some []
  | some (p :: rest) =>
    if p.falsy then some []
    else if gm_id then gm_id_loop (p :: rest)
    else if teaser then teaser_loop mailbox (p :: rest) initTeaserState
    else if full then full_loop mailbox (p :: rest) []
    else header_loop mailbox (p :: rest) []

/-! ### Pagination (`page_from_list`, mailbox.py lines 135-166) -/

/-- `page_from_list(a_list, limit, offset)`: the Python `False` sentinel for
`limit` ("no truncation") is modelled by `Option.none`; the claims restrict
`offset` to non-negative values and `limit` to positive values, so both are
`Nat`.  The slice `a_list[first:last]` with `0 ≤ first ≤ last` is
`(drop first).take (last - first)`. -/
def page_from_list {α : Type} (a_list : List α) (limit : Option Nat) (offset : Nat) :
    List α :=
  let count := a_list.length
  if count ≤ offset then []
  else
    match limit with
    | none => a_list.drop offset
    | some l =>
      let last_req_item := offset + l
      let last_elm_index := if last_req_item ≥ count then count else last_req_item
      (a_list.drop offset).take (last_elm_index - offset)

/-! ### Query templates (mailbox.py lines 9-23) -/

/-- `uid_fields` -/
def uid_fields : String := "X-GM-MSGID UID"

/-- `meta_fields` -/
def meta_fields : String := "INTERNALDATE X-GM-MSGID X-GM-LABELS UID FLAGS"

/-- `header_fields` -/
def header_fields : String := "BODY.PEEK[HEADER]"

/-- `body_fields` -/
def body_fields : String := "BODY.PEEK[]"

/-- `teaser_fields` -/
def teaser_fields : String := "BODY.PEEK[1]"

/-- `imap_queries['gm_id']` -/
def imap_queries_gm_id : String := "(X-GM-MSGID)"

/-- `imap_queries['uid']` -/
def imap_queries_uid : String := "(" ++ uid_fields ++ ")"

/-- `imap_queries['body']` -/
def imap_queries_body : String := "(" ++ meta_fields ++ " " ++ body_fields ++ ")"

/-- `imap_queries['teaser']` -/
def imap_queries_teaser : String :=
  "(" ++ meta_fields ++ " BODYSTRUCTURE " ++ header_fields ++ " " ++ teaser_fields ++ ")"

/-- `imap_queries['header']` -/
def imap_queries_header : String := "(" ++ meta_fields ++ " " ++ header_fields ++ ")"

/-! ### Mailbox command pipeline

Each operation is modelled by a function taking the account state and
returning the updated state together with the commands issued on the
connection during an error-free run. -/

/-- A `Mailbox` instance: `id` stands for the Python object identity (the
source compares `self is self.account.last_viewed_mailbox`), `name` is the
human-readable mailbox name passed to SELECT. -/
structure MailboxM where
  id : Nat
  name : String
deriving DecidableEq

/-- The per-account shared state: which mailbox object (by identity) is
remembered as last viewed (`account.last_viewed_mailbox`). -/
structure AccountState where
  last_viewed : Option Nat
deriving DecidableEq

/-- A command issued on the shared IMAP connection, with the arguments the
source passes.  `select none` models `connection.select()` called with no
mailbox argument; `wait` models the `_cmd_in` fixed-delay rescheduling. -/
inductive ImapCmd where
  | select (mailbox : Option String)
  | uidCopy (uid trash : String)
  | uidSearch (criterion : String)
  | uidStore (uid flags : String)
  | uidFetch (uids query : String)
  | fetchCmd (ids query : String)
  | expungeCmd
  | wait (units : Nat)
deriving DecidableEq

/-- True on the trash-search command of the delete protocol. -/
def isSearchCmd : ImapCmd → Bool
  | .uidSearch _ => true
  | _ => false

/-- True on a fixed-delay wait. -/
def isWaitCmd : ImapCmd → Bool
  | .wait _ => true
  | _ => false

/-- True on any SELECT command. -/
def isSelectCmd : ImapCmd → Bool
  | .select _ => true
  | _ => false

/-- `Mailbox.count` (mailbox.py lines 202-222), projected onto commands and
account state: it issues `connection.select(self.name)` and on success
records this mailbox as last viewed.  The numeric message-count extraction
from the SELECT response is not modelled, as no claim refers to it. -/
def count_run (mbx : MailboxM) (st : AccountState) : AccountState × List ImapCmd :=
  let _ := st
  ({ last_viewed := some mbx.id }, [ImapCmd.select (some mbx.name)])

/-- `Mailbox.select` (mailbox.py lines 363-382): if this mailbox is already
the account's last viewed one, do nothing and report `false`; otherwise run
`count` (which issues the single SELECT), record the mailbox as last
viewed, and report `true`. -/
def select_run (mbx : MailboxM) (st : AccountState) :
    AccountState × List ImapCmd × Bool :=
  if st.last_viewed = some mbx.id then (st, [], false)
  else
    let r := count_run mbx st
    ({ last_viewed := some mbx.id }, r.2, true)

/-- A sequence of `select` invocations (the ensure-selected step of a run of
consecutive operations), accumulating the SELECT commands issued. -/
def run_selects : List MailboxM → AccountState → AccountState × List ImapCmd
  | [], st => (st, [])
  | m :: rest, st =>
    let r := select_run m st
    let r2 := run_selects rest r.1
    (r2.1, r.2.1 ++ r2.2)

/-! ### Delete-message retry protocol (mailbox.py lines 224-337) -/

/-- The uid extracted by `_on_search_for_message_complete` from the search
response payload: `data[0].split()[-1]`.  `IndexError` (empty payload list,
or a first line with no whitespace-separated tokens) is modelled by
`none`. -/
def searchUid? (data : List String) : Option String :=
  match data with
  | [] => none
  | d :: _ => (pySplitWs d).getLast?

/-- The retry loop of `delete_message` from the first trash search onward.
`env t` is the search response payload observed when the attempt counter
`num_tries` equals `t`.  On a uid the loop issues
`STORE \Deleted` / `EXPUNGE` / a no-argument SELECT and reports `true`; on
no uid it increments the counter, gives up with `false` when the counter
reaches 5, and otherwise waits 2 time units and searches again.  `fuel`
only bounds the recursion for Lean: the loop is entered by
`delete_message_run` with `num_tries = 0` and `fuel = 5`, and under those
initial values the `num_tries == 5` check of the source always fires before
the fuel runs out. -/
def delete_retry_loop (msg_id : String) (env : Nat → List String) :
    Nat → Nat → List ImapCmd × Bool
  | _, 0 => ([], false)
  | num_tries, fuel + 1 =>
    let searchCmd := ImapCmd.uidSearch ("\"rfc822msgid:" ++ msg_id ++ "\"")
    match searchUid? (env num_tries) with
    | some deleted_uid =>
      (searchCmd :: [ImapCmd.uidStore deleted_uid "\\Deleted", ImapCmd.expungeCmd,
        ImapCmd.select none], true)
    | none =>
      if num_tries + 1 == 5 then ([searchCmd], false)
      else
        let r := delete_retry_loop msg_id env (num_tries + 1) fuel
        (searchCmd :: ImapCmd.wait 2 :: r.1, r.2)

/-- `Mailbox.delete_message` (mailbox.py lines 224-337) on an error-free
run: ensure the source mailbox is selected, `UID COPY` the message to the
trash folder, select the trash (the source passes `connection.select` no
mailbox argument here), then run the search-retry loop with the counter
initialised to 0.  Only `Mailbox.count` updates `last_viewed`, so the
direct `connection.select()` calls leave the account state unchanged. -/
def delete_message_run (mbx : MailboxM) (st : AccountState)
    (uid msg_id trash_folder : String) (env : Nat → List String) :
    AccountState × List ImapCmd × Bool :=
  let sel := select_run mbx st
  let r := delete_retry_loop msg_id env 0 5
  (sel.1,
   sel.2.1 ++ [ImapCmd.uidCopy uid trash_folder, ImapCmd.select none] ++ r.1,
   r.2)

/-! ### Bulk fetch operations (mailbox.py lines 506-558 and 658-721) -/

/-- A Python value delivered to a continuation: either a record or a plain
string element of a delivered list. -/
inductive PyElem where
  | record (r : GMRecord)
  | strval (s : String)
deriving DecidableEq

/-- The value `fetch_all` / `messages_by_id` deliver to their continuation:
Python `None` or a Python list. -/
inductive Delivered where
  | pyNone
  | pyList (elems : List PyElem)
deriving DecidableEq

/-- The positional uid extraction of `messages_by_id` when `only_uids` is
requested: `string.split(elm, " ")[4][:-1]` on each response line; a
non-string part or a line with fewer than five space-separated fields
raises (modelled by `none`). -/
def uid_from_line : Part → Option String
  | Part.str s =>
    match (s.splitOn " ").get? 4 with
    | some tok => some (tok.dropRight 1)
    | none => none
  | _ => none

/-- `Mailbox.fetch_all` (mailbox.py lines 506-558) on an error-free run:
with an empty `uids` list it delivers Python `None` at once and issues no
command; otherwise it ensures the mailbox is selected, issues
`UID FETCH <uids joined by commas> <query>` with the query template chosen
by the flags, and delivers the decoded records.  `resp` is the raw FETCH
response payload. -/
def fetch_all_run (mbx : MailboxM) (st : AccountState) (uids : List String)
    (teaser full gm_ids : Bool) (resp : Option (List Part)) :
    AccountState × List ImapCmd × Option Delivered :=
  if uids.isEmpty then (st, [], some Delivered.pyNone)
  else
    let sel := select_run mbx st
    let request :=
      if gm_ids then imap_queries_gm_id
      else if full then imap_queries_body
      else if teaser then imap_queries_teaser
      else imap_queries_header
    let cmds := sel.2.1 ++ [ImapCmd.uidFetch (String.intercalate "," uids) request]
    match parse_fetch_request resp mbx.name teaser full gm_ids with
    | some msgs => (sel.1, cmds, some (Delivered.pyList (msgs.map PyElem.record)))
    | none => (sel.1, cmds, none)

/-- `Mailbox.messages_by_id` (mailbox.py lines 658-721) on an error-free
run: with an empty `ids` list it delivers the empty Python list at once and
issues no command; otherwise it ensures the mailbox is selected, issues
`FETCH <ids joined by commas> <query>`, and delivers either the positional
uid extraction (when `only_uids`) or the decoded records. -/
def messages_by_id_run (mbx : MailboxM) (st : AccountState) (ids : List String)
    (only_uids teaser full gm_ids : Bool) (resp : Option (List Part)) :
    AccountState × List ImapCmd × Option Delivered :=
  if ids.length == 0 then (st, [], some (Delivered.pyList []))
  else
    let sel := select_run mbx st
    let request :=
      if gm_ids then imap_queries_gm_id
      else if only_uids then imap_queries_uid
      else if full then imap_queries_body
      else if teaser then imap_queries_teaser
      else imap_queries_header
    let cmds := sel.2.1 ++ [ImapCmd.fetchCmd (String.intercalate "," ids) request]
    if only_uids then
      match resp with
      | none => (sel.1, cmds, none)
      | some parts =>
        match parts.mapM uid_from_line with
        | some us => (sel.1, cmds, some (Delivered.pyList (us.map PyElem.strval)))
        | none => (sel.1, cmds, none)
    else
      match parse_fetch_request resp mbx.name teaser full gm_ids with
      | some msgs => (sel.1, cmds, some (Delivered.pyList (msgs.map PyElem.record)))
      | none => (sel.1, cmds, none)

/-- The shape of one well-formed header-mode message group: a tuple part
with exactly the two payload sub-parts (metadata, header block), followed by
a terminal marker part.  `mk_header_groups` lays a list of such groups out
as a raw response. -/
def mk_header_groups : List (String × String × Part) → List Part
  | [] => []
  | (m, h, t) :: rest => Part.tup [m, h] :: t :: mk_header_groups rest

/-! ### Helper lemmas -/

theorem listStartsWith_append_left (a b s : List Char)
    (h : listStartsWith (a ++ b) s = true) : listStartsWith a s = true := by
  induction a generalizing s with
  | nil => simp [listStartsWith]
  | cons x xs ih =>
    cases s with
    | nil => simp [listStartsWith] at h
    | cons y ys =>
      simp only [List.cons_append, listStartsWith, Bool.and_eq_true] at h ⊢
      exact ⟨h.1, ih ys h.2⟩

theorem listHasSub_append_left (a b s : List Char)
    (h : listHasSub (a ++ b) s = true) : listHasSub a s = true := by
  induction s with
  | nil =>
    simp only [listHasSub, List.isEmpty_iff, List.append_eq_nil] at h
    simp [listHasSub, h.1]
  | cons c cs ih =>
    simp only [listHasSub, Bool.or_eq_true] at h ⊢
    rcases h with h | h
    · exact Or.inl (listStartsWith_append_left a b _ h)
    · exact Or.inr (ih h)

theorem substr_append_left (n m h : String) (hs : substr (n ++ m) h = true) :
    substr n h = true := by
  unfold substr at hs ⊢
  have e : (n ++ m).data = n.data ++ m.data := by
    cases n; cases m; rfl
  rw [e] at hs
  exact listHasSub_append_left _ _ _ hs

theorem substr_body1_of_marker (s : String)
    (h : substr "BODY[1] NIL)" s = true) : substr "BODY[1]" s = true := by
  apply substr_append_left "BODY[1]" " NIL)"
  have e : ("BODY[1]" ++ " NIL)" : String) = "BODY[1] NIL)" := by decide
  rw [e]
  exact h

theorem header_loop_groups (mb : String) (gs : List (String × String × Part)) :
    header_loop mb (mk_header_groups gs) []
      = some (gs.map fun g => GMRecord.messageHeaders mb g.1 g.2.1) := by
  induction gs with
  | nil => rfl
  | cons g rest ih =>
    obtain ⟨m, h, t⟩ := g
    simp [mk_header_groups, header_loop, Part.get2?, ih]

theorem select_run_countP_search (mbx : MailboxM) (st : AccountState) :
    ((select_run mbx st).2.1).countP isSearchCmd = 0 := by
  unfold select_run
  split <;> simp [count_run, isSearchCmd]

theorem select_run_filter_wait (mbx : MailboxM) (st : AccountState) :
    ((select_run mbx st).2.1).filter isWaitCmd = [] := by
  unfold select_run
  split <;> simp [count_run, isWaitCmd]

theorem retry_loop_fifth (msg_id : String) (env : Nat → List String) (u : String)
    (h4 : ∀ t, t < 4 → searchUid? (env t) = none)
    (h5 : searchUid? (env 4) = some u) :
    delete_retry_loop msg_id env 0 5
      = ([ImapCmd.uidSearch ("\"rfc822msgid:" ++ msg_id ++ "\""), ImapCmd.wait 2,
          ImapCmd.uidSearch ("\"rfc822msgid:" ++ msg_id ++ "\""), ImapCmd.wait 2,
          ImapCmd.uidSearch ("\"rfc822msgid:" ++ msg_id ++ "\""), ImapCmd.wait 2,
          ImapCmd.uidSearch ("\"rfc822msgid:" ++ msg_id ++ "\""), ImapCmd.wait 2,
          ImapCmd.uidSearch ("\"rfc822msgid:" ++ msg_id ++ "\""),
          ImapCmd.uidStore u "\\Deleted", ImapCmd.expungeCmd, ImapCmd.select none],
         true) := by
  have e0 := h4 0 (by omega)
  have e1 := h4 1 (by omega)
  have e2 := h4 2 (by omega)
  have e3 := h4 3 (by omega)
  simp [delete_retry_loop, e0, e1, e2, e3, h5]

theorem retry_loop_exhausted (msg_id : String) (env : Nat → List String)
    (h5 : ∀ t, t < 5 → searchUid? (env t) = none) :
    delete_retry_loop msg_id env 0 5
      = ([ImapCmd.uidSearch ("\"rfc822msgid:" ++ msg_id ++ "\""), ImapCmd.wait 2,
          ImapCmd.uidSearch ("\"rfc822msgid:" ++ msg_id ++ "\""), ImapCmd.wait 2,
          ImapCmd.uidSearch ("\"rfc822msgid:" ++ msg_id ++ "\""), ImapCmd.wait 2,
          ImapCmd.uidSearch ("\"rfc822msgid:" ++ msg_id ++ "\""), ImapCmd.wait 2,
          ImapCmd.uidSearch ("\"rfc822msgid:" ++ msg_id ++ "\"")],
         false) := by
  have e0 := h5 0 (by omega)
  have e1 := h5 1 (by omega)
  have e2 := h5 2 (by omega)
  have e3 := h5 3 (by omega)
  have e4 := h5 4 (by omega)
  simp [delete_retry_loop, e0, e1, e2, e3, e4]

/-! ### The claims -/

/-- C3: in header mode, a raw response laid out as N well-formed message
groups — each one nested part with exactly two sub-parts (metadata, header
block) followed by one terminal marker part — decodes to exactly N header
records in input order, the i-th record carrying the i-th group's metadata
and header sub-parts unmodified. -/
theorem claim_C3 (mb : String) (gs : List (String × String × Part)) :
    parse_fetch_request (some (mk_header_groups gs)) mb false false false
      = some (gs.map fun g => GMRecord.messageHeaders mb g.1 g.2.1)
    ∧ (gs.map fun g => GMRecord.messageHeaders mb g.1 g.2.1).length = gs.length := by
  constructor
  · cases gs with
    | nil => rfl
    | cons g rest =>
      obtain ⟨m, h, t⟩ := g
      have hg := header_loop_groups mb ((m, h, t) :: rest)
      simpa [parse_fetch_request, mk_header_groups, Part.falsy] using hg
  · simp

/-- C4: in full mode, a raw response of one nested group (metadata, combined
message text) followed by one terminating top-level part decodes to exactly
one record whose headers field and body field are both the combined-text
sub-part. -/
theorem claim_C4 (mb m c : String) (t : Part) :
    parse_fetch_request (some [Part.tup [m, c], t]) mb false true false
      = some [GMRecord.message mb m c c] := by
  simp [parse_fetch_request, Part.falsy, full_loop, Part.get2?]

/-- C5 counterexample: a raw response with a sub-part that contains the
header-to-body boundary marker immediately followed by the empty-body
marker (the literal shape `BODY[1] NIL)`), yet teaser-mode decoding emits
no record at all: the claim's completion only happens when the scanner has
already left the metadata phase, so as stated (for every raw response
containing such a sub-part) the claim is false. -/
theorem claim_C5_counterexample :
    substr "BODY[1] NIL)" "BODY[1] NIL)" = true
    ∧ parse_fetch_request (some [Part.tup ["BODY[1] NIL)"]]) "mb" true false false
        = some [] := by
  constructor
  · decide
  · rfl

/-- C5 (amended): in teaser mode, when the sub-part containing the
`BODY[1] NIL)` marker is reached in the header phase — i.e. a preceding
sub-part of the group contained the `BODY[HEADER]` metadata boundary — and
is the last sub-part of its top-level part, the decoder completes the
message at the end of that part and emits a teaser record whose body field
(and header field) is the empty string. -/
theorem claim_C5 (mb m1 m2 : String)
    (h1 : substr "BODY[HEADER]" m1 = true)
    (h2 : substr "BODY[1] NIL)" m2 = true) :
    parse_fetch_request (some [Part.tup [m1, m2]]) mb true false false
      = some [GMRecord.messageTeaser mb m1 "" ""] := by
  have h3 := substr_body1_of_marker m2 h2
  simp [parse_fetch_request, Part.falsy, teaser_loop, teaser_subs, teaser_step,
    initTeaserState, h1, h2, h3]

/-- C5 witness: the amended claim at a concrete input. -/
theorem claim_C5_witness :
    substr "BODY[HEADER]" "17 (UID 5 BODY[HEADER]" = true
    ∧ substr "BODY[1] NIL)" " BODY[1] NIL)" = true
    ∧ parse_fetch_request
        (some [Part.tup ["17 (UID 5 BODY[HEADER]", " BODY[1] NIL)"]])
        "INBOX" true false false
      = some [GMRecord.messageTeaser "INBOX" "17 (UID 5 BODY[HEADER]" "" ""] :=
  ⟨by decide, by decide,
   claim_C5 "INBOX" "17 (UID 5 BODY[HEADER]" " BODY[1] NIL)" (by decide) (by decide)⟩

/-- C7: for every decoding mode, an empty or missing raw response decodes to
the empty sequence without error. -/
theorem claim_C7 (mb : String) (teaser full gm_id : Bool) :
    parse_fetch_request none mb teaser full gm_id = some []
    ∧ parse_fetch_request (some []) mb teaser full gm_id = some [] :=
  ⟨rfl, rfl⟩

/-- C10: for every mode, a non-empty raw response whose first top-level part
is falsy (empty string, empty tuple, or None) decodes to the empty
sequence immediately, whatever the later parts contain. -/
theorem claim_C10 (mb : String) (teaser full gm_id : Bool) (p : Part)
    (rest : List Part) (h : p.falsy = true) :
    parse_fetch_request (some (p :: rest)) mb teaser full gm_id = some [] := by
  simp [parse_fetch_request, h]

/-- C10 witness: an empty first string part short-circuits the decode even
when a well-formed header group follows. -/
theorem claim_C10_witness :
    (Part.str "").falsy = true
    ∧ parse_fetch_request
        (some [Part.str "", Part.tup ["meta", "hdr"], Part.str ")"])
        "INBOX" false false false = some [] :=
  ⟨rfl, claim_C10 "INBOX" false false false (Part.str "")
          [Part.tup ["meta", "hdr"], Part.str ")"] rfl⟩

/-- C6: for every list, non-negative offset and limit that is positive or
the unbounded sentinel, `page_from_list` returns the contiguous
sub-sequence starting at `offset` of length `min limit (length - offset)`
(all remaining elements for the sentinel), is empty whenever
`offset ≥ length`, and — being a total function — never raises on
out-of-range indices. -/
theorem claim_C6 {α : Type} (ids : List α) (limit : Option Nat) (offset : Nat)
    (hpos : ∀ n, limit = some n → 0 < n) :
    (limit = none → page_from_list ids limit offset = ids.drop offset)
    ∧ (∀ n, limit = some n →
        page_from_list ids limit offset = (ids.drop offset).take n)
    ∧ (limit = none →
        (page_from_list ids limit offset).length = ids.length - offset)
    ∧ (∀ n, limit = some n →
        (page_from_list ids limit offset).length = min n (ids.length - offset))
    ∧ (ids.length ≤ offset → page_from_list ids limit offset = []) := by
  clear hpos
  refine ⟨?_, ?_, ?_, ?_, ?_⟩
  · rintro rfl
    unfold page_from_list
    by_cases hle : ids.length ≤ offset
    · simp [hle, List.drop_eq_nil_of_le hle]
    · simp [hle]
  · rintro n rfl
    unfold page_from_list
    by_cases hle : ids.length ≤ offset
    · simp [hle, List.drop_eq_nil_of_le hle]
    · by_cases hge : ids.length ≤ offset + n
      · have hlen : (ids.drop offset).length ≤ ids.length - offset := by
          simp [List.length_drop]
        have h1 : (ids.drop offset).take (ids.length - offset) = ids.drop offset :=
          List.take_of_length_le hlen
        have h2 : (ids.drop offset).take n = ids.drop offset :=
          List.take_of_length_le (by simp [List.length_drop]; omega)
        simp [hle, ge_iff_le, hge, h1, h2]
      · have : offset + n - offset = n := by omega
        simp [hle, ge_iff_le, hge, this]
  · rintro rfl
    unfold page_from_list
    by_cases hle : ids.length ≤ offset <;>
      simp [hle, List.length_drop]
  · rintro n rfl
    unfold page_from_list
    by_cases hle : ids.length ≤ offset
    · simp [hle]
    · by_cases hge : ids.length ≤ offset + n <;>
        simp [hle, ge_iff_le, hge, List.length_take, List.length_drop] <;> omega
  · intro h
    simp [page_from_list, h]

/-- C6 witness: the pagination contract at a concrete input. -/
theorem claim_C6_witness :
    (0 < 2)
    ∧ page_from_list ["a", "b", "c", "d"] (some 2) 1
        = (["a", "b", "c", "d"].drop 1).take 2
    ∧ (page_from_list ["a", "b", "c", "d"] (some 2) 1).length = min 2 (4 - 1)
    ∧ (4 ≤ 9 → page_from_list ["a", "b", "c", "d"] (some 2) 9 = []) := by
  have h := claim_C6 ["a", "b", "c", "d"] (some 2) 1
    (fun n hn => by cases hn; decide)
  have h9 := claim_C6 ["a", "b", "c", "d"] (some 2) 9
    (fun n hn => by cases hn; decide)
  exact ⟨by decide, h.2.1 2 rfl, by simpa using h.2.2.2.1 2 rfl,
    fun _ => h9.2.2.2.2 (by decide)⟩

/-- C8: `Mailbox.select` issues no SELECT and reports false when the target
is already the account's remembered active mailbox; otherwise it issues
exactly one SELECT (naming the target), records the target as active, and
reports true.  Consequently two consecutive operations on the same mailbox
issue exactly one SELECT, and an A, B, A run with distinct mailboxes issues
a SELECT each time. -/
theorem claim_C8 :
    (∀ (m : MailboxM) (st : AccountState), st.last_viewed = some m.id →
        select_run m st = (st, [], false))
    ∧ (∀ (m : MailboxM) (st : AccountState), st.last_viewed ≠ some m.id →
        select_run m st
          = ({ last_viewed := some m.id }, [ImapCmd.select (some m.name)], true))
    ∧ (∀ (m : MailboxM) (st : AccountState), st.last_viewed ≠ some m.id →
        (run_selects [m, m] st).2 = [ImapCmd.select (some m.name)])
    ∧ (∀ (a b : MailboxM) (st : AccountState), a.id ≠ b.id →
        st.last_viewed ≠ some a.id →
        (run_selects [a, b, a] st).2
          = [ImapCmd.select (some a.name), ImapCmd.select (some b.name),
             ImapCmd.select (some a.name)]) := by
  refine ⟨?_, ?_, ?_, ?_⟩
  · intro m st h
    simp [select_run, h]
  · intro m st h
    simp [select_run, count_run, h]
  · intro m st h
    simp [run_selects, select_run, count_run, h]
  · intro a b st hab ha
    simp [run_selects, select_run, count_run, ha, hab, Ne.symm hab]

/-- C8 witness: the selection memo at concrete mailboxes and states. -/
theorem claim_C8_witness :
    select_run ⟨0, "INBOX"⟩ ⟨some 0⟩ = (⟨some 0⟩, [], false)
    ∧ select_run ⟨0, "INBOX"⟩ ⟨none⟩
        = (⟨some 0⟩, [ImapCmd.select (some "INBOX")], true)
    ∧ (run_selects [⟨0, "A"⟩, ⟨0, "A"⟩] ⟨none⟩).2 = [ImapCmd.select (some "A")]
    ∧ (run_selects [⟨0, "A"⟩, ⟨1, "B"⟩, ⟨0, "A"⟩] ⟨none⟩).2
        = [ImapCmd.select (some "A"), ImapCmd.select (some "B"),
           ImapCmd.select (some "A")] :=
  ⟨claim_C8.1 ⟨0, "INBOX"⟩ ⟨some 0⟩ rfl,
   claim_C8.2.1 ⟨0, "INBOX"⟩ ⟨none⟩ (by decide),
   claim_C8.2.2.1 ⟨0, "A"⟩ ⟨none⟩ (by decide),
   claim_C8.2.2.2 ⟨0, "A"⟩ ⟨1, "B"⟩ ⟨none⟩ (by decide) (by decide)⟩

/-- C9: on an empty input list, `fetch_all` delivers Python `None` and
`messages_by_id` delivers the empty Python list, neither issuing any IMAP
command — the two bulk-fetch operations disagree on this edge case. -/
theorem claim_C9 (mbx : MailboxM) (st : AccountState)
    (only_uids teaser full gm_ids : Bool) (resp : Option (List Part)) :
    fetch_all_run mbx st [] teaser full gm_ids resp
      = (st, [], some Delivered.pyNone)
    ∧ messages_by_id_run mbx st [] only_uids teaser full gm_ids resp
      = (st, [], some (Delivered.pyList []))
    ∧ Delivered.pyNone ≠ Delivered.pyList [] :=
  ⟨rfl, rfl, by decide⟩

/-- C1: the delete-message retry policy.  First conjunct: in every
error-free run in which the trash search yields no uid on the first four
attempts and a uid on the fifth, `delete_message` issues exactly 5 search
attempts interleaved with exactly 4 fixed waits of 2 time units and
delivers `true`.  Second conjunct: in every error-free run in which all 5
searches yield nothing, it issues exactly 5 searches (no further attempts),
4 waits, and delivers the boolean `false` — a definitive failure, not a
propagated error. -/
theorem claim_C1 :
    (∀ (mbx : MailboxM) (st : AccountState) (uid msg_id trash : String)
        (env : Nat → List String) (u : String),
      (∀ t, t < 4 → searchUid? (env t) = none) →
      searchUid? (env 4) = some u →
      ((delete_message_run mbx st uid msg_id trash env).2.2 = true
       ∧ ((delete_message_run mbx st uid msg_id trash env).2.1.countP
            isSearchCmd) = 5
       ∧ ((delete_message_run mbx st uid msg_id trash env).2.1.filter isWaitCmd)
            = [ImapCmd.wait 2, ImapCmd.wait 2, ImapCmd.wait 2, ImapCmd.wait 2]))
    ∧ (∀ (mbx : MailboxM) (st : AccountState) (uid msg_id trash : String)
        (env : Nat → List String),
      (∀ t, t < 5 → searchUid? (env t) = none) →
      ((delete_message_run mbx st uid msg_id trash env).2.2 = false
       ∧ ((delete_message_run mbx st uid msg_id trash env).2.1.countP
            isSearchCmd) = 5
       ∧ ((delete_message_run mbx st uid msg_id trash env).2.1.filter isWaitCmd)
            = [ImapCmd.wait 2, ImapCmd.wait 2, ImapCmd.wait 2, ImapCmd.wait 2])) := by
  constructor
  · intro mbx st uid msg_id trash env u h4 h5
    have hloop := retry_loop_fifth msg_id env u h4 h5
    refine ⟨?_, ?_, ?_⟩ <;>
      simp [delete_message_run, hloop, List.countP_append, List.countP_cons,
        List.filter_append, select_run_countP_search, select_run_filter_wait,
        isSearchCmd, isWaitCmd]
  · intro mbx st uid msg_id trash env h5
    have hloop := retry_loop_exhausted msg_id env h5
    refine ⟨?_, ?_, ?_⟩ <;>
      simp [delete_message_run, hloop, List.countP_append, List.countP_cons,
        List.filter_append, select_run_countP_search, select_run_filter_wait,
        isSearchCmd, isWaitCmd]

/-- C1 witness: both retry scenarios at concrete inputs — a search oracle
that answers only on the fifth attempt, and one that never answers. -/
theorem claim_C1_witness :
    ((delete_message_run ⟨0, "INBOX"⟩ ⟨none⟩ "4" "mid" "Trash"
        (fun t => if t == 4 then ["2 77"] else [])).2.2 = true
     ∧ ((delete_message_run ⟨0, "INBOX"⟩ ⟨none⟩ "4" "mid" "Trash"
           (fun t => if t == 4 then ["2 77"] else [])).2.1.countP isSearchCmd) = 5
     ∧ ((delete_message_run ⟨0, "INBOX"⟩ ⟨none⟩ "4" "mid" "Trash"
           (fun t => if t == 4 then ["2 77"] else [])).2.1.filter isWaitCmd)
          = [ImapCmd.wait 2, ImapCmd.wait 2, ImapCmd.wait 2, ImapCmd.wait 2])
    ∧ ((delete_message_run ⟨0, "INBOX"⟩ ⟨none⟩ "4" "mid" "Trash"
          (fun _ => [])).2.2 = false
       ∧ ((delete_message_run ⟨0, "INBOX"⟩ ⟨none⟩ "4" "mid" "Trash"
             (fun _ => [])).2.1.countP isSearchCmd) = 5
       ∧ ((delete_message_run ⟨0, "INBOX"⟩ ⟨none⟩ "4" "mid" "Trash"
             (fun _ => [])).2.1.filter isWaitCmd)
            = [ImapCmd.wait 2, ImapCmd.wait 2, ImapCmd.wait 2, ImapCmd.wait 2]) :=
  ⟨claim_C1.1 ⟨0, "INBOX"⟩ ⟨none⟩ "4" "mid" "Trash"
      (fun t => if t == 4 then ["2 77"] else []) "77" (by decide) (by decide),
   claim_C1.2 ⟨0, "INBOX"⟩ ⟨none⟩ "4" "mid" "Trash" (fun _ => []) (by decide)⟩

/-- C2: on the success path `delete_message` does issue
`UID STORE <uid> FLAGS \Deleted`, then `EXPUNGE`, and then a SELECT — but
that final SELECT is issued with no mailbox argument (the source passes
`connection.select` nothing, although its continuation is named
`_on_original_mailbox_reselected`), so the original source mailbox "Work"
is never named after the store: the run below deletes from mailbox "Work"
(already active, search succeeds at once) and its full command trace ends
with `select none`, with no `select (some "Work")` anywhere in it. -/
theorem claim_C2_trace :
    ((delete_message_run ⟨1, "Work"⟩ ⟨some 1⟩ "4" "mid" "[Gmail]/Trash"
        (fun _ => ["2 77"])).2.1
      = [ImapCmd.uidCopy "4" "[Gmail]/Trash", ImapCmd.select none,
         ImapCmd.uidSearch "\"rfc822msgid:mid\"",
         ImapCmd.uidStore "77" "\\Deleted", ImapCmd.expungeCmd,
         ImapCmd.select none])
    ∧ ((delete_message_run ⟨1, "Work"⟩ ⟨some 1⟩ "4" "mid" "[Gmail]/Trash"
        (fun _ => ["2 77"])).2.2 = true)
    ∧ ImapCmd.select (some "Work")
        ∉ (delete_message_run ⟨1, "Work"⟩ ⟨some 1⟩ "4" "mid" "[Gmail]/Trash"
            (fun _ => ["2 77"])).2.1 := by
  refine ⟨by decide, by decide, by decide⟩

end PyGmail
